import Mathlib

/-!
Shallow embedding of `driver.go` from the docker-logging-plugin repository:
the log-pair lifecycle manager (registry of active log pairs, start/stop
operations) and the read-back bridge of `ReadLogs`.

Go maps are embedded as association lists with Go-map semantics
(`lookupA`, `insertA`, `eraseA`).  External collaborators (the jsonfile
logger, the splunk logger, the fifo open, `os.MkdirAll`,
`ValidateLogOpt`) are abstracted by a `StartEnv` record that fixes the
outcome of each fallible step, mirroring the sequence of error checks in
`StartLogging`.  Goroutine bodies (`mg.process`, the `ReadLogs` bridge)
are embedded as pure functions over the sequence of events the goroutine
would consume.
-/

namespace Driver

/-- Association-list lookup, mirroring a Go map read `m[k]`. -/
def lookupA {α : Type} (k : String) : List (String × α) → Option α
  | [] => none
  | p :: rest => if p.1 = k then some p.2 else lookupA k rest

/-- Remove every binding of key `k`, mirroring Go `delete(m, k)`. -/
def eraseA {α : Type} (k : String) : List (String × α) → List (String × α)
  | [] => []
  | p :: rest => if p.1 = k then eraseA k rest else p :: eraseA k rest

/-- Association-list update, mirroring a Go map write `m[k] = v`. -/
def insertA {α : Type} (k : String) (v : α) (m : List (String × α)) :
    List (String × α) :=
  (k, v) :: eraseA k m

/-- An abstract `logger.Logger` instance.  `supportsReadBack` records
whether the dynamic type also implements `logger.LogReader` (the type
assertion `lf.jsonl.(logger.LogReader)` in `ReadLogs`). -/
structure Logger where
  id : Nat
  supportsReadBack : Bool
deriving DecidableEq, Repr

/-- The fields of `logger.Info` that `driver.go` reads: `ContainerID`,
`LogPath` and the option map `Config`. -/
structure LogInfo where
  containerID : String
  logPath : String
  config : List (String × String)
deriving DecidableEq, Repr

/-- `logPair`: one input stream bound to its json logger, splunk logger
and metadata (`driver.go`, lines 47-52).  The stream is identified by the
fifo descriptor obtained from `fifo.OpenFifo`. -/
structure LogPair where
  jsonl : Logger
  splunkl : Logger
  stream : Nat
  info : LogInfo
deriving DecidableEq, Repr

/-- The `driver` struct: the stream-keyed map `logs` (file → pair) and the
source-keyed map `idx` (container id → pair).  `closedStreams` records
which fifo descriptors have been closed by `lf.stream.Close()`, making the
close side effect of `StopLogging` observable. -/
structure DriverState where
  logs : List (String × LogPair)
  idx : List (String × LogPair)
  closedStreams : List Nat
deriving DecidableEq, Repr

/-- `newDriver()`: both maps empty. -/
def newDriver : DriverState :=
  { logs := [], idx := [], closedStreams := [] }

/-- A resource acquired during `StartLogging`: a constructed logger or an
opened fifo stream. -/
inductive Resource where
  | logger (l : Logger)
  | stream (id : Nat)
deriving DecidableEq, Repr

/-- The errors `StartLogging` can return, one per `return` statement with
a non-nil error (`driver.go`, lines 66, 75, 81, 86, 92, 99). -/
inductive StartErr where
  | alreadyExists
  | setupErr
  | jsonlInitErr
  | configErr
  | splunkInitErr
  | fifoOpenErr
deriving DecidableEq, Repr

/-- Outcomes of the external fallible steps of `StartLogging`:
`os.MkdirAll`, `jsonfilelog.New`, `ValidateLogOpt`, splunk `New`, and
`fifo.OpenFifo`.  `none` means the step fails. -/
structure StartEnv where
  mkdirOk : Bool
  jsonl : Option Logger
  validateOk : Bool
  splunkl : Option Logger
  fifo : Option Nat
deriving DecidableEq, Repr

/-- All external steps of a start succeed. -/
def envAllOk (env : StartEnv) : Bool :=
  env.mkdirOk && env.jsonl.isSome && env.validateOk &&
    env.splunkl.isSome && env.fifo.isSome

deriving instance DecidableEq for Except

/-- Result of a `StartLogging` call: the returned error (if any), the
driver state after the call, the resources acquired during the call, and
the resources the call released before returning. -/
structure StartResult where
  res : Except StartErr Unit
  state : DriverState
  acquired : List Resource
  released : List Resource
deriving DecidableEq, Repr

/-- Default log path `/var/log/docker/<containerID>` (`driver.go`,
line 72). -/
def defaultLogPath (containerID : String) : String :=
  "/var/log/docker/" ++ containerID

/-- `StartLogging` (`driver.go`, lines 61-114), with each external call's
outcome drawn from `env`.  The Go code closes nothing on its error paths,
so `released` is empty on every path. -/
def StartLogging (d : DriverState) (file : String) (logCtx : LogInfo)
    (env : StartEnv) : StartResult :=
  match lookupA file d.logs with
  | some _ => ⟨.error .alreadyExists, d, [], []⟩
  | none =>
    let ctx : LogInfo :=
      if logCtx.logPath = "" then
        { logCtx with logPath := defaultLogPath logCtx.containerID }
      else logCtx
    if env.mkdirOk = false then ⟨.error .setupErr, d, [], []⟩
    else
      match env.jsonl with
      | none => ⟨.error .jsonlInitErr, d, [], []⟩
      | some jsonl =>
        if env.validateOk = false then
          ⟨.error .configErr, d, [.logger jsonl], []⟩
        else
          match env.splunkl with
          | none => ⟨.error .splunkInitErr, d, [.logger jsonl], []⟩
          | some splunkl =>
            match env.fifo with
            | none =>
              ⟨.error .fifoOpenErr, d, [.logger jsonl, .logger splunkl], []⟩
            | some f =>
              let lf : LogPair := ⟨jsonl, splunkl, f, ctx⟩
              ⟨.ok (),
               { d with logs := insertA file lf d.logs,
                        idx := insertA ctx.containerID lf d.idx },
               [.logger jsonl, .logger splunkl, .stream f], []⟩

/-- `StopLogging` (`driver.go`, lines 116-126): if the file is registered,
close its stream and delete it from `logs`; in every case return nil. -/
def StopLogging (d : DriverState) (file : String) :
    Except StartErr Unit × DriverState :=
  match lookupA file d.logs with
  | some lf =>
    (.ok (), { d with logs := eraseA file d.logs,
                      closedStreams := lf.stream :: d.closedStreams })
  | none => (.ok (), d)

/-- The fields of `logger.ReadConfig` the bridge passes through. -/
structure ReadConfig where
  tail : Nat
  follow : Bool
deriving DecidableEq, Repr

/-- The errors `ReadLogs` can return (`driver.go`, lines 133, 139). -/
inductive ReadErr where
  | notFound
  | unsupported
deriving DecidableEq, Repr

/-- The readable handle `ReadLogs` hands back: the pipe's read end,
identified by the pair whose history it will replay and the read
configuration the bridge goroutine was given. -/
structure ReadHandle where
  pair : LogPair
  config : ReadConfig
deriving DecidableEq, Repr

/-- `ReadLogs` (`driver.go`, lines 128-141, the synchronous part): look up
the pair by container id in `idx`, fail with not-found if absent, fail
with unsupported if the json logger is not a `LogReader`, otherwise
return the pipe's read end.  The bridge goroutine's behaviour is embedded
separately as `runBridge`. -/
def ReadLogs (d : DriverState) (info : LogInfo) (config : ReadConfig) :
    Except ReadErr ReadHandle × DriverState :=
  match lookupA info.containerID d.idx with
  | none => (.error .notFound, d)
  | some lf =>
    if lf.jsonl.supportsReadBack then (.ok ⟨lf, config⟩, d)
    else (.error .unsupported, d)

/-- A log message delivered on the watcher's `Msg` channel: the fields of
`logger.Message` that the bridge reads (`Line`, `Partial`,
`Timestamp.UnixNano()`, `Source`). -/
structure LogMessage where
  line : List Nat
  isPartial : Bool
  timestampNanos : Int
  source : String
deriving DecidableEq, Repr

/-- The reusable `logdriver.LogEntry` buffer `buf` of the bridge: fields
`Line`, `Partial`, `TimeNano`, `Source`. -/
structure Frame where
  line : List Nat
  isPartial : Bool
  timeNano : Int
  source : String
deriving DecidableEq, Repr

/-- `buf.Reset()`: all fields back to their zero values. -/
def Frame.reset : Frame :=
  { line := [], isPartial := false, timeNano := 0, source := "" }

/-- The field copy the bridge performs for one message
(`driver.go`, lines 158-161). -/
def frameOfMsg (m : LogMessage) : Frame :=
  { line := m.line, isPartial := m.isPartial,
    timeNano := m.timestampNanos, source := m.source }

/-- Decoding a frame back into a message: the inverse field copy. -/
def msgOfFrame (fr : Frame) : LogMessage :=
  { line := fr.line, isPartial := fr.isPartial,
    timestampNanos := fr.timeNano, source := fr.source }

/-- How the bridge closed the pipe's write end: `w.Close()` or
`w.CloseWithError(err)`. -/
inductive CloseMode where
  | clean
  | withError (e : String)
deriving DecidableEq, Repr

/-- One run of the watcher feed, sequentialized: the messages delivered on
`watcher.Msg`, followed by the terminal event — `none` when the `Msg`
channel closes cleanly, `some e` when `watcher.Err` delivers `e`. -/
structure Feed where
  msgs : List LogMessage
  term : Option String
deriving DecidableEq, Repr

/-- The pipe's write end as the bridge sees it: `budget = none` means
every `enc.WriteMsg` succeeds; `budget = some k` means `k` more writes
succeed and the next one fails with `failMsg` (the reader closed its end
early). -/
structure Writer where
  budget : Option Nat
  failMsg : String
deriving DecidableEq, Repr

/-- Does the next `enc.WriteMsg` succeed? -/
def writeOk (w : Writer) : Bool :=
  match w.budget with
  | none => true
  | some k => decide (0 < k)

/-- Consume one successful write. -/
def writeStep (w : Writer) : Writer :=
  match w.budget with
  | none => w
  | some k => { w with budget := some (k - 1) }

/-- A writer whose writes never fail (the reader keeps reading). -/
def noFailWriter : Writer :=
  { budget := none, failMsg := "" }

/-- What the bridge goroutine did: the frames it wrote to the pipe in
order, how it closed the pipe's write end, and whether the deferred
`watcher.Close()` ran. -/
structure BridgeResult where
  frames : List Frame
  close : CloseMode
  watcherClosed : Bool
deriving DecidableEq, Repr

/-- The bridge's `for`/`select` loop (`driver.go`, lines 150-173): for
each message set `buf`'s fields from it, write the frame (on a write
error close the pipe with that error and stop), then `buf.Reset()`; when
the `Msg` channel closes, `w.Close()`; when `watcher.Err` fires,
`w.CloseWithError(err)`. -/
def bridgeLoop (buf : Frame) (w : Writer) (term : Option String) :
    List LogMessage → List Frame × CloseMode
  | [] =>
    match term with
    | none => ([], .clean)
    | some e => ([], .withError e)
  | msg :: rest =>
    let buf1 : Frame :=
      { buf with line := msg.line, isPartial := msg.isPartial,
                 timeNano := msg.timestampNanos, source := msg.source }
    if writeOk w then
      let r := bridgeLoop Frame.reset (writeStep w) term rest
      (buf1 :: r.1, r.2)
    else ([], .withError w.failMsg)

/-- The whole bridge goroutine (`driver.go`, lines 142-174): run the loop
on the feed; the deferred `watcher.Close()` (and `enc.Close()`) run on
every return path. -/
def runBridge (feed : Feed) (w : Writer) : BridgeResult :=
  let r := bridgeLoop Frame.reset w feed.term feed.msgs
  { frames := r.1, close := r.2, watcherClosed := true }

/-- Big-endian 4-byte length prefix, as written by
`protoio.NewUint32DelimitedWriter(w, binary.BigEndian)`. -/
def u32be (n : Nat) : List Nat :=
  [n / 2 ^ 24 % 256, n / 2 ^ 16 % 256, n / 2 ^ 8 % 256, n % 256]

/-- One length-delimited frame on the wire: big-endian length prefix
followed by the serialized entry.  The payload serialization (protobuf
marshalling of `logdriver.LogEntry`) is an external collaborator, passed
in as `ser`. -/
def encodeFrame (ser : Frame → List Nat) (fr : Frame) : List Nat :=
  u32be (ser fr).length ++ ser fr

/-- Decode a stream of length-delimited frames: read a 4-byte big-endian
length, split off that many payload bytes, deserialize them, repeat until
the stream ends exactly. -/
def decodeStream (deser : List Nat → Option Frame) :
    List Nat → Option (List Frame)
  | [] => some []
  | b0 :: b1 :: b2 :: b3 :: rest =>
    let n := ((b0 * 256 + b1) * 256 + b2) * 256 + b3
    if _h : n ≤ rest.length then
      match deser (rest.take n) with
      | none => none
      | some fr =>
        match decodeStream deser (rest.drop n) with
        | none => none
        | some frs => some (fr :: frs)
    else none
  | [_] => none
  | [_, _] => none
  | [_, _, _] => none
termination_by bytes => bytes.length
decreasing_by simp [List.length_drop]; omega

/-- One host-facing lifecycle operation against the driver. -/
inductive Op where
  | start (file : String) (ctx : LogInfo) (env : StartEnv)
  | stop (file : String)
deriving DecidableEq, Repr

/-- Apply one operation to the driver state. -/
def stepOp (d : DriverState) : Op → DriverState
  | .start f ctx env => (StartLogging d f ctx env).state
  | .stop f => (StopLogging d f).2

/-- Run a sequence of operations from a fresh driver. -/
def runOps (ops : List Op) : DriverState :=
  ops.foldl stepOp newDriver

/-- `op` is a `startLogging` call for stream `f` that succeeds when run
against driver state `d`: `f` is not yet registered and every external
step succeeds. -/
def IsSucceedingStartFor (d : DriverState) (op : Op) (f : String) : Prop :=
  ∃ ctx env, op = Op.start f ctx env ∧ lookupA f d.logs = none ∧
    envAllOk env = true

/-- Stream `f` is active after `ops`: some operation in `ops` was a
succeeding start for `f` (succeeding relative to the state the run had
reached) and no later operation stops `f`. -/
def StreamActive (ops : List Op) (f : String) : Prop :=
  ∃ pre op post, ops = pre ++ op :: post ∧
    IsSucceedingStartFor (runOps pre) op f ∧ Op.stop f ∉ post

/-! Concrete sample values used to instantiate the theorems below. -/

/-- Metadata for container `c1` with no log path set. -/
def ctx1 : LogInfo := ⟨"c1", "", []⟩

/-- An environment where every external step succeeds and the json logger
supports read-back. -/
def envGood1 : StartEnv := ⟨true, some ⟨1, true⟩, true, some ⟨2, false⟩, some 10⟩

/-- A second all-good environment with distinct loggers and stream. -/
def envGood2 : StartEnv := ⟨true, some ⟨3, true⟩, true, some ⟨4, false⟩, some 11⟩

/-- An environment where splunk-logger construction fails after the json
logger has been constructed. -/
def envSplunkFails : StartEnv := ⟨true, some ⟨1, true⟩, true, none, some 10⟩

/-- The pair registered by a successful start of file `f1` for container
`c1` under `envGood1`. -/
def pair1 : LogPair := ⟨⟨1, true⟩, ⟨2, false⟩, 10, ⟨"c1", "/var/log/docker/c1", []⟩⟩

/-- Driver state with `f1`/`c1` registered via `pair1`. -/
def dReg : DriverState := ⟨[("f1", pair1)], [("c1", pair1)], []⟩

/-- A pair whose json logger does not implement `logger.LogReader`. -/
def pairNoRead : LogPair := ⟨⟨5, false⟩, ⟨6, false⟩, 12, ⟨"c1", "/x", []⟩⟩

/-- Driver state whose `c1` entry cannot serve read-back. -/
def dNoRead : DriverState := ⟨[("f1", pairNoRead)], [("c1", pairNoRead)], []⟩

/-- A sample read configuration. -/
def cfg1 : ReadConfig := ⟨0, false⟩

/-- A sample log message (line `hi` on stdout). -/
def m1 : LogMessage := ⟨[104, 105], false, 5, "stdout"⟩

/-- A second sample log message (an empty partial line on stderr). -/
def m2 : LogMessage := ⟨[], true, 6, "stderr"⟩

/-- A toy payload serializer distinguishing the two sample frames, used
to instantiate the round-trip theorem concretely. -/
def serDemo : Frame → List Nat :=
  fun fr => if fr = frameOfMsg m1 then [0] else [1, 2]

/-- The matching payload deserializer for `serDemo`. -/
def deserDemo : List Nat → Option Frame :=
  fun b =>
    if b = [0] then some (frameOfMsg m1)
    else if b = [1, 2] then some (frameOfMsg m2) else none

/-! Helper lemmas about the association-list map operations. -/

theorem lookupA_eraseA {α : Type} (k k' : String) (m : List (String × α)) :
    lookupA k' (eraseA k m) = if k' = k then none else lookupA k' m := by
  induction m with
  | nil => simp [lookupA, eraseA]
  | cons p rest ih =>
    by_cases h1 : p.1 = k
    · by_cases h2 : k' = k
      · subst h2
        simpa [eraseA, h1] using ih
      · have h4 : ¬ p.1 = k' := fun hh => h2 (by rw [← hh, h1])
        have h5 : ¬ k = k' := fun hh => h2 hh.symm
        simp [eraseA, lookupA, h1, h2, h4, h5, ih]
    · by_cases h2 : p.1 = k'
      · have h3 : ¬ k' = k := fun h3 => h1 (h2.trans h3)
        simp [eraseA, lookupA, h1, h2, h3]
      · simp [eraseA, lookupA, h1, h2, ih]

theorem lookupA_insertA {α : Type} (k k' : String) (v : α)
    (m : List (String × α)) :
    lookupA k' (insertA k v m) = if k' = k then some v else lookupA k' m := by
  by_cases h : k' = k
  · subst h
    simp [insertA, lookupA]
  · have h4 : ¬ k = k' := fun hh => h hh.symm
    simp [insertA, lookupA, h4, h, lookupA_eraseA]


/-- Claim C1: for every stream identifier already present in the
stream-keyed map, `startLogging` with that identifier fails with the
already-exists error and leaves both registry maps (and the whole driver
state) unchanged, acquiring and releasing nothing. -/
theorem startLogging_duplicate_rejected (d : DriverState) (f : String)
    (ctx : LogInfo) (env : StartEnv) (lf : LogPair)
    (h : lookupA f d.logs = some lf) :
    StartLogging d f ctx env = ⟨.error .alreadyExists, d, [], []⟩ := by
  simp [StartLogging, h]

/-- Witness for C1: a concrete driver with `f1` registered rejects a
second start of `f1`. -/
theorem startLogging_duplicate_rejected_witness :
    StartLogging dReg "f1" ctx1 envGood2 =
      ⟨.error .alreadyExists, dReg, [], []⟩ :=
  startLogging_duplicate_rejected dReg "f1" ctx1 envGood2 pair1 (by decide)

/-- Claim C6: `stopLogging` returns without error on every input —
unknown identifiers and repeated stops included. -/
theorem stopLogging_always_ok (d : DriverState) (f : String) :
    (StopLogging d f).1 = .ok () ∧
    (StopLogging (StopLogging d f).2 f).1 = .ok () := by
  have h : ∀ (d' : DriverState) (f' : String),
      (StopLogging d' f').1 = .ok () := by
    intro d' f'
    unfold StopLogging
    rcases lookupA f' d'.logs with _ | _ <;> simp
  exact ⟨h d f, h _ f⟩

/-- Claim C4 (counterexample): with `f1` registered and its pair exactly
the one indexed under source `c1` (not superseded), `stopLogging "f1"`
does not clear the source-keyed entry: the lookup still succeeds
afterwards, contradicting the claim that the entry is cleared. -/
theorem stopLogging_idx_cex :
    lookupA "f1" dReg.logs = some pair1 ∧
    lookupA "c1" dReg.idx = some pair1 ∧
    lookupA "c1" (StopLogging dReg "f1").2.idx = some pair1 := by
  decide

/-- Claim C4 (amended): `stopLogging` never modifies the source-keyed
map, whether or not the stopped pair is still the one indexed under its
source; the index entry persists until overwritten by a later start for
the same source. -/
theorem stopLogging_idx_untouched (d : DriverState) (f : String) :
    (StopLogging d f).2.idx = d.idx := by
  unfold StopLogging
  rcases lookupA f d.logs with _ | _ <;> simp

/-- Claim C5 (counterexample): when splunk-logger construction fails, the
json logger acquired beforehand is not released before returning — the
released list is empty — contradicting the claim that every resource
acquired before the failing step is released. -/
theorem startLogging_no_release_cex :
    (StartLogging newDriver "f1" ctx1 envSplunkFails).res =
      Except.error StartErr.splunkInitErr ∧
    Resource.logger ⟨1, true⟩ ∈
      (StartLogging newDriver "f1" ctx1 envSplunkFails).acquired ∧
    Resource.logger ⟨1, true⟩ ∉
      (StartLogging newDriver "f1" ctx1 envSplunkFails).released := by
  decide

/-- Claim C5 (amended): whenever `startLogging` fails after the duplicate
check (any external step fails), it returns an error with the driver
state — in particular both registry maps — unchanged, but it releases no
resources: loggers constructed and streams opened before the failing step
are leaked, not closed. -/
theorem startLogging_failure_no_partial_state (d : DriverState)
    (f : String) (ctx : LogInfo) (env : StartEnv)
    (h1 : lookupA f d.logs = none) (h2 : envAllOk env = false) :
    (∃ e, (StartLogging d f ctx env).res = Except.error e) ∧
    (StartLogging d f ctx env).state = d ∧
    (StartLogging d f ctx env).released = [] := by
  obtain ⟨mk, js, va, sp, fi⟩ := env
  simp [envAllOk] at h2
  cases mk <;> rcases js with _ | j <;> cases va <;> rcases sp with _ | s <;>
    rcases fi with _ | fi <;> simp_all [StartLogging, h1]

/-- Witness for C5 (amended): concretely, a start on a fresh driver whose
splunk construction fails errors out, leaves the state untouched and
releases nothing. -/
theorem startLogging_failure_no_partial_state_witness :
    (∃ e, (StartLogging newDriver "f1" ctx1 envSplunkFails).res =
        Except.error e) ∧
    (StartLogging newDriver "f1" ctx1 envSplunkFails).state = newDriver ∧
    (StartLogging newDriver "f1" ctx1 envSplunkFails).released = [] :=
  startLogging_failure_no_partial_state newDriver "f1" ctx1 envSplunkFails
    (by decide) (by decide)

/-- Claim C10: `readLogs` never modifies the registry: the driver state
after the call, whether it returned a handle or an error, is the state it
was called with. -/
theorem readLogs_state_unchanged (d : DriverState) (info : LogInfo)
    (cfg : ReadConfig) :
    (ReadLogs d info cfg).2 = d := by
  unfold ReadLogs
  rcases lookupA info.containerID d.idx with _ | lf
  · rfl
  · by_cases h : lf.jsonl.supportsReadBack <;> simp [h]

/-- Claim C7: `readLogs` fails with not-found when the source identity is
absent from the source-keyed map, fails with unsupported when the found
pair's json logger does not implement read-back, and otherwise
immediately returns the readable handle for that pair (the handle depends
only on the registry lookup; all byte production is the bridge's,
embedded separately as `runBridge`). -/
theorem readLogs_contract (d : DriverState) (info : LogInfo)
    (cfg : ReadConfig) :
    (lookupA info.containerID d.idx = none →
      (ReadLogs d info cfg).1 = Except.error ReadErr.notFound) ∧
    (∀ lf, lookupA info.containerID d.idx = some lf →
      lf.jsonl.supportsReadBack = false →
      (ReadLogs d info cfg).1 = Except.error ReadErr.unsupported) ∧
    (∀ lf, lookupA info.containerID d.idx = some lf →
      lf.jsonl.supportsReadBack = true →
      (ReadLogs d info cfg).1 = Except.ok ⟨lf, cfg⟩) := by
  refine ⟨fun h => by simp [ReadLogs, h], fun lf h hr => ?_, fun lf h hr => ?_⟩ <;>
    simp [ReadLogs, h, hr]

/-- Witness for C7: an unknown container yields not-found, a pair without
read-back support yields unsupported, and a supporting pair yields its
handle. -/
theorem readLogs_contract_witness :
    (ReadLogs newDriver ctx1 cfg1).1 = Except.error ReadErr.notFound ∧
    (ReadLogs dNoRead ctx1 cfg1).1 = Except.error ReadErr.unsupported ∧
    (ReadLogs dReg ctx1 cfg1).1 = Except.ok ⟨pair1, cfg1⟩ :=
  ⟨(readLogs_contract newDriver ctx1 cfg1).1 (by decide),
   (readLogs_contract dNoRead ctx1 cfg1).2.1 pairNoRead (by decide) (by decide),
   (readLogs_contract dReg ctx1 cfg1).2.2 pair1 (by decide) (by decide)⟩

/-- Claim C9: a second successful start under a different stream
identifier but the same source identity overwrites the source-keyed index
entry with the newly registered pair, while every previously registered
stream — in particular the first pair — remains in the stream-keyed map
unchanged. -/
theorem startLogging_supersedes_idx (d : DriverState) (f2 : String)
    (ctx : LogInfo) (env : StartEnv)
    (h1 : lookupA f2 d.logs = none) (h2 : envAllOk env = true) :
    ∃ lf, lookupA f2 (StartLogging d f2 ctx env).state.logs = some lf ∧
      lookupA ctx.containerID (StartLogging d f2 ctx env).state.idx =
        some lf ∧
      ∀ f', f' ≠ f2 →
        lookupA f' (StartLogging d f2 ctx env).state.logs =
          lookupA f' d.logs := by
  obtain ⟨mk, js, va, sp, fi⟩ := env
  cases mk <;> cases va <;> rcases js with _ | j <;> rcases sp with _ | s <;>
    rcases fi with _ | fi <;> simp [envAllOk] at h2
  by_cases hp : ctx.logPath = ""
  · refine ⟨⟨j, s, fi, { ctx with logPath := defaultLogPath ctx.containerID }⟩,
      ?_, ?_, ?_⟩
    · simp [StartLogging, h1, hp, lookupA_insertA]
    · simp [StartLogging, h1, hp, lookupA_insertA]
    · intro f' hf'
      simp [StartLogging, h1, hp, lookupA_insertA, hf']
  · refine ⟨⟨j, s, fi, ctx⟩, ?_, ?_, ?_⟩
    · simp [StartLogging, h1, hp, lookupA_insertA]
    · simp [StartLogging, h1, hp, lookupA_insertA]
    · intro f' hf'
      simp [StartLogging, h1, hp, lookupA_insertA, hf']

/-- Witness for C9: starting `f2` for the already-indexed source `c1`
rebinds the index to the new pair and keeps `f1`'s registration. -/
theorem startLogging_supersedes_idx_witness :
    ∃ lf, lookupA "f2" (StartLogging dReg "f2" ctx1 envGood2).state.logs =
        some lf ∧
      lookupA ctx1.containerID
          (StartLogging dReg "f2" ctx1 envGood2).state.idx = some lf ∧
      ∀ f', f' ≠ "f2" →
        lookupA f' (StartLogging dReg "f2" ctx1 envGood2).state.logs =
          lookupA f' dReg.logs :=
  startLogging_supersedes_idx dReg "f2" ctx1 envGood2 (by decide) (by decide)

/-! Helper lemmas about the read-back bridge and the wire format. -/

theorem msgOfFrame_frameOfMsg (m : LogMessage) :
    msgOfFrame (frameOfMsg m) = m := rfl

theorem map_msgOfFrame_frameOfMsg (l : List LogMessage) :
    (l.map frameOfMsg).map msgOfFrame = l := by
  induction l with
  | nil => rfl
  | cons a t ih => simp [ih, msgOfFrame_frameOfMsg]

theorem bridgeLoop_noFail (s : String) (term : Option String)
    (msgs : List LogMessage) (buf : Frame) :
    bridgeLoop buf ⟨none, s⟩ term msgs =
      (msgs.map frameOfMsg,
       match term with
       | none => CloseMode.clean
       | some e => CloseMode.withError e) := by
  induction msgs generalizing buf with
  | nil => cases term <;> simp [bridgeLoop]
  | cons m rest ih => simp [bridgeLoop, writeOk, writeStep, frameOfMsg, ih]

theorem decodeStream_step (deser : List Nat → Option Frame)
    (p tb : List Nat) (hl : p.length < 2 ^ 32) :
    decodeStream deser
      (p.length / 2 ^ 24 % 256 :: p.length / 2 ^ 16 % 256 ::
       p.length / 2 ^ 8 % 256 :: p.length % 256 :: (p ++ tb)) =
      match deser p with
      | none => none
      | some fr =>
        match decodeStream deser tb with
        | none => none
        | some frs => some (fr :: frs) := by
  have hn : ((p.length / 2 ^ 24 % 256 * 256 + p.length / 2 ^ 16 % 256) * 256 +
      p.length / 2 ^ 8 % 256) * 256 + p.length % 256 = p.length := by
    omega
  rw [decodeStream]
  simp only [hn]
  have hle : p.length ≤ (p ++ tb).length := by simp
  rw [dif_pos hle, List.take_left, List.drop_left]

theorem decodeStream_encode (ser : Frame → List Nat)
    (deser : List Nat → Option Frame) (frs : List Frame)
    (hinv : ∀ fr ∈ frs, deser (ser fr) = some fr)
    (hlen : ∀ fr ∈ frs, (ser fr).length < 2 ^ 32) :
    decodeStream deser ((frs.map (encodeFrame ser)).flatten) = some frs := by
  induction frs with
  | nil => simp [decodeStream]
  | cons fr rest ih =>
    have h1 : deser (ser fr) = some fr := hinv fr (by simp)
    have h2 : (ser fr).length < 2 ^ 32 := hlen fr (by simp)
    have ih2 := ih (fun g hg => hinv g (List.mem_cons_of_mem _ hg))
      (fun g hg => hlen g (List.mem_cons_of_mem _ hg))
    have hsplit : ((fr :: rest).map (encodeFrame ser)).flatten =
        (ser fr).length / 2 ^ 24 % 256 :: (ser fr).length / 2 ^ 16 % 256 ::
          (ser fr).length / 2 ^ 8 % 256 :: (ser fr).length % 256 ::
          (ser fr ++ (rest.map (encodeFrame ser)).flatten) := by
      simp [encodeFrame, u32be]
    rw [hsplit, decodeStream_step deser (ser fr) _ h2, h1, ih2]

/-- Claim C2: with the watcher feed delivering `msgs` and closing cleanly
(and the reader keeping the pipe open), the bridge emits exactly one
length-delimited frame per entry, in order — no drop, duplication or
reordering — whose fields (line bytes, partial flag, timestamp in
nanoseconds, source) equal those of the corresponding entry; hence the
emitted byte stream decodes back to the original entries, for any payload
serialization that the deserializer inverts on the emitted frames. -/
theorem bridge_fifo_roundtrip (msgs : List LogMessage)
    (ser : Frame → List Nat) (deser : List Nat → Option Frame)
    (hinv : ∀ fr ∈ msgs.map frameOfMsg, deser (ser fr) = some fr)
    (hlen : ∀ fr ∈ msgs.map frameOfMsg, (ser fr).length < 2 ^ 32) :
    (runBridge ⟨msgs, none⟩ noFailWriter).frames = msgs.map frameOfMsg ∧
    decodeStream deser
        (((runBridge ⟨msgs, none⟩ noFailWriter).frames.map
            (encodeFrame ser)).flatten) =
      some (msgs.map frameOfMsg) ∧
    (runBridge ⟨msgs, none⟩ noFailWriter).frames.map msgOfFrame = msgs := by
  have hf : (runBridge ⟨msgs, none⟩ noFailWriter).frames =
      msgs.map frameOfMsg := by
    simp [runBridge, noFailWriter, bridgeLoop_noFail]
  refine ⟨hf, ?_, ?_⟩
  · rw [hf]
    exact decodeStream_encode ser deser _ hinv hlen
  · rw [hf]
    exact map_msgOfFrame_frameOfMsg msgs

/-- Witness for C2: two concrete messages round-trip through the bridge
and the toy payload serialization. -/
theorem bridge_fifo_roundtrip_witness :
    (runBridge ⟨[m1, m2], none⟩ noFailWriter).frames =
      [m1, m2].map frameOfMsg ∧
    decodeStream deserDemo
        (((runBridge ⟨[m1, m2], none⟩ noFailWriter).frames.map
            (encodeFrame serDemo)).flatten) =
      some ([m1, m2].map frameOfMsg) ∧
    (runBridge ⟨[m1, m2], none⟩ noFailWriter).frames.map msgOfFrame =
      [m1, m2] :=
  bridge_fifo_roundtrip [m1, m2] serDemo deserDemo (by decide) (by decide)

/-- Claim C8: the bridge closes the output stream with the feed's error
when the error channel fires, closes it cleanly when the message channel
closes, and releases the watcher subscription (the deferred
`watcher.Close()`) on every exit path — including reader-side early
close, i.e. any write budget. -/
theorem bridge_termination :
    (∀ (msgs : List LogMessage) (e : String),
      (runBridge ⟨msgs, some e⟩ noFailWriter).close =
        CloseMode.withError e) ∧
    (∀ msgs : List LogMessage,
      (runBridge ⟨msgs, none⟩ noFailWriter).close = CloseMode.clean) ∧
    (∀ (feed : Feed) (w : Writer),
      (runBridge feed w).watcherClosed = true) := by
  refine ⟨fun msgs e => ?_, fun msgs => ?_, fun feed w => rfl⟩ <;>
    simp [runBridge, noFailWriter, bridgeLoop_noFail]

/-! Helper lemmas for the registry trace invariant. -/

theorem runOps_concat (ops : List Op) (op : Op) :
    runOps (ops ++ [op]) = stepOp (runOps ops) op := by
  simp [runOps, List.foldl_append]

theorem mem_logs_start (d : DriverState) (f f' : String) (ctx : LogInfo)
    (env : StartEnv) :
    (lookupA f' (StartLogging d f ctx env).state.logs).isSome = true ↔
      (f' = f ∧ lookupA f d.logs = none ∧ envAllOk env = true) ∨
        (lookupA f' d.logs).isSome = true := by
  rcases hd : lookupA f d.logs with _ | lf
  · obtain ⟨mk, js, va, sp, fi⟩ := env
    cases mk <;> cases va <;> rcases js with _ | j <;> rcases sp with _ | s <;>
      rcases fi with _ | fi <;> by_cases hf : f' = f <;>
      simp [StartLogging, envAllOk, hd, hf, lookupA_insertA]
  · simp [StartLogging, hd]

theorem mem_logs_stop (d : DriverState) (f f' : String) :
    (lookupA f' (StopLogging d f).2.logs).isSome = true ↔
      ¬ f' = f ∧ (lookupA f' d.logs).isSome = true := by
  rcases hd : lookupA f d.logs with _ | lf <;> by_cases hf : f' = f <;>
    simp [StopLogging, hd, hf, lookupA_eraseA]

theorem streamActive_concat (ops : List Op) (op : Op) (f : String) :
    StreamActive (ops ++ [op]) f ↔
      IsSucceedingStartFor (runOps ops) op f ∨
        (StreamActive ops f ∧ ¬ op = Op.stop f) := by
  constructor
  · rintro ⟨pre, o, post, heq, hstart, hpost⟩
    rcases List.eq_nil_or_concat' post with hpost0 | ⟨post', x, hx⟩
    · subst hpost0
      obtain ⟨h2, h3⟩ := List.append_inj' heq.symm rfl
      obtain ⟨h4, -⟩ := List.cons.inj h3
      subst h2
      subst h4
      exact Or.inl hstart
    · subst hx
      have heq2 : (pre ++ o :: post') ++ [x] = ops ++ [op] := by
        simpa using heq.symm
      obtain ⟨h5, h6⟩ := List.append_inj' heq2 rfl
      obtain ⟨h7, -⟩ := List.cons.inj h6
      refine Or.inr ⟨⟨pre, o, post', h5.symm, hstart, fun hm =>
        hpost (List.mem_append_left _ hm)⟩, fun hop => ?_⟩
      exact hpost (List.mem_append_right _ (by simp [h7, hop]))
  · rintro (h | ⟨⟨pre, o, post, heq, hstart, hpost⟩, hop⟩)
    · exact ⟨ops, op, [], rfl, h, by simp⟩
    · refine ⟨pre, o, post ++ [op], by simp [heq], hstart, ?_⟩
      intro hm
      rcases List.mem_append.mp hm with hm1 | hm2
      · exact hpost hm1
      · simp at hm2
        exact hop hm2.symm

/-- Claim C3: registry invariant — after any sequence of start/stop
operations from a fresh driver, a pair is present in the stream-keyed map
iff some start for that identifier succeeded (it was absent and every
external step succeeded) and no later operation stops that identifier;
moreover `stopLogging` on a registered identifier closes the pair's input
stream and removes it from the stream-keyed map, and is a no-op returning
success on an absent identifier. -/
theorem registry_invariant :
    (∀ (ops : List Op) (f : String),
      (lookupA f (runOps ops).logs).isSome = true ↔ StreamActive ops f) ∧
    (∀ (d : DriverState) (f : String),
      StopLogging d f = (Except.ok (),
        match lookupA f d.logs with
        | some lf =>
          { d with
            logs := eraseA f d.logs,
            closedStreams := lf.stream :: d.closedStreams }
        | none => d)) := by
  constructor
  · intro ops f
    induction ops using List.reverseRecOn with
    | nil =>
      simp [runOps, newDriver, lookupA, StreamActive]
    | append_singleton ops op ih =>
      rw [runOps_concat, streamActive_concat]
      cases op with
      | start f0 ctx env =>
        simp only [stepOp]
        rw [mem_logs_start]
        constructor
        · rintro (⟨h1, h2, h3⟩ | h)
          · exact Or.inl ⟨ctx, env, by rw [h1], by rw [h1]; exact h2, h3⟩
          · exact Or.inr ⟨ih.mp h, by simp⟩
        · rintro (⟨ctx', env', heq, h2, h3⟩ | ⟨h, -⟩)
          · injection heq with hf hc he
            exact Or.inl ⟨hf.symm, by rw [hf]; exact h2, by rw [he]; exact h3⟩
          · exact Or.inr (ih.mpr h)
      | stop f0 =>
        simp only [stepOp]
        rw [mem_logs_stop]
        constructor
        · rintro ⟨h1, h2⟩
          exact Or.inr ⟨ih.mp h2, fun hh => h1 (by cases hh; rfl)⟩
        · rintro (⟨ctx', env', heq, -, -⟩ | ⟨h, hne⟩)
          · exact Op.noConfusion heq
          · exact ⟨fun hh => hne (by rw [hh]), ih.mpr h⟩
  · intro d f
    rcases h : lookupA f d.logs with _ | lf <;> simp [StopLogging, h]

/-- Witness for C3: the invariant evaluated on the one-start trace for
`f1`, and the stop equation evaluated at a concrete registered state. -/
theorem registry_invariant_witness :
    ((lookupA "f1" (runOps [Op.start "f1" ctx1 envGood1]).logs).isSome =
        true ↔ StreamActive [Op.start "f1" ctx1 envGood1] "f1") ∧
    StopLogging dReg "f1" = (Except.ok (),
      match lookupA "f1" dReg.logs with
      | some lf =>
        { dReg with
          logs := eraseA "f1" dReg.logs,
          closedStreams := lf.stream :: dReg.closedStreams }
      | none => dReg) :=
  ⟨registry_invariant.1 [Op.start "f1" ctx1 envGood1] "f1",
   registry_invariant.2 dReg "f1"⟩
